import Mathlib

set_option maxRecDepth 8000

/-!
Shallow embedding of the repository's three source files, centred on
`unstructured/documents/email_elements.py` (element identity, equality and
the cleaning pipeline) and `unstructured/ingest/connector/slack.py`
(ingestion-document lifecycle).  Python mutation is rendered as explicit
state passing, raised exceptions as `Except.error` / explicit outcome
values, and machine-level hashing as executable `Nat` arithmetic mod 2^32.
-/

/-- A Python runtime value flowing through the cleaning pipeline: cleaners
are supposed to map strings to strings, but a misbehaving cleaner may
return, e.g., an integer. -/
inductive PyVal
  | str (s : String)
  | int (n : Int)
  deriving DecidableEq

def PyVal.isStr : PyVal → Bool
  | PyVal.str _ => true
  | PyVal.int _ => false

/-- Modelled from the spec: the element metadata record (class
`ElementMetadata` of `unstructured.documents.elements`, which is not under
`src/`) carrying the optional page number consumed by the identity
fingerprint `id_to_hash`. -/
structure ElementMetadata where
  page_number : Option Int := none
  deriving DecidableEq

/-- The `Name` element of `email_elements.py`: mutable `name`/`text`
fields, the optional `datestamp` attribute (present on the instance iff a
`datetime` was passed to `__init__`; rendered here as an `Option` of an
abstract timestamp), the element id stored by the `Element` base class
(`__init__` draws a random uuid4 when no id is supplied; the claims below
always work with an explicitly given id), and the element metadata. -/
structure Name where
  name : String
  text : String
  datestamp : Option Int := none
  id : String := ""
  metadata : ElementMetadata := { page_number := none }
  deriving DecidableEq

/-- The names bound at module top level in `email_elements.py` (the dunder
names of every module plus its imports and class definitions): this is the
namespace that the `globals()` call inside `Name.has_datestamp` denotes.
Python identifiers cannot contain a dot and the module never inserts a key
by hand, so the key "self.datestamp" is never present. -/
def emailElementsGlobals : List String :=
  ["__name__", "__doc__", "__package__", "__loader__", "__spec__",
   "__file__", "__builtins__",
   "hashlib", "uuid", "ABC", "datetime", "Callable", "List", "Union",
   "Element", "NoID", "Text",
   "NoDatestamp", "EmailElement", "Name", "BodyText", "Recipient",
   "Sender", "Subject", "MetaData", "ReceivedInfo", "Attachment"]

/-- Method `Name.has_datestamp`: the source tests whether the string
"self.datestamp" is a key of `globals()` — the module namespace — rather
than whether the instance carries the attribute. -/
def Name.has_datestamp (_e : Name) : Bool :=
  emailElementsGlobals.contains "self.datestamp"

/-- Method `Name.__eq__`: compares `name` and `text`, and additionally the
datestamps when `has_datestamp` answers true (the datestamp branch
compares the two optional datestamp attributes). -/
def Name.__eq__ (e other : Name) : Bool :=
  if e.has_datestamp then
    e.name == other.name && e.text == other.text && e.datestamp == other.datestamp
  else
    e.name == other.name && e.text == other.text

/-- The cleaner loop of `Name.apply`: starting from the current `text` and
`name`, each cleaner is applied to the running text and then to the
running name, threading the outputs into the next cleaner. -/
def Name.cleanRun (e : Name) (cleaners : List (PyVal → PyVal)) : PyVal × PyVal :=
  cleaners.foldl (fun (p : PyVal × PyVal) cleaner => (cleaner p.1, cleaner p.2))
    (PyVal.str e.text, PyVal.str e.name)

/-- Method `Name.apply`: runs the cleaner loop over local variables; only after
the full sequence does it check that both final results are strings,
raising `ValueError` (and leaving the element untouched) otherwise, and
assigning both fields on success.  The pair returned is (raised/ok,
element after the call). -/
def Name.apply (e : Name) (cleaners : List (PyVal → PyVal)) :
    Except String Unit × Name :=
  match Name.cleanRun e cleaners with
  | (PyVal.str t, PyVal.str n) => (Except.ok (), { e with text := t, name := n })
  | _ => (Except.error "Cleaner produced a non-string output.", e)

/-- Python's `str.strip` as a cleaner brick: drops leading and trailing
whitespace (defined on strings; a non-string argument would raise in
Python and is passed through here, which no theorem below relies on). -/
def pyStrip : PyVal → PyVal
  | PyVal.str s =>
    PyVal.str (String.mk
      (((s.data.dropWhile Char.isWhitespace).reverse.dropWhile Char.isWhitespace).reverse))
  | v => v

/-- Python's `str.lower` as a cleaner brick (same proviso as `pyStrip`). -/
def pyLower : PyVal → PyVal
  | PyVal.str s => PyVal.str (String.mk (s.data.map Char.toLower))
  | v => v

/-- A cleaner that violates the contract by returning an integer. -/
def badCleaner : PyVal → PyVal := fun _ => PyVal.int 1

/-- Concrete elements for the equality counterexample: identical
`name`/`text`, both datestamps present but different. -/
def c1Left : Name := { name := "from", text := "alice", datestamp := some 100, id := "a" }

def c1Right : Name := { name := "from", text := "alice", datestamp := some 200, id := "b" }

def c4Elem : Name := { name := "subject", text := "hello", id := "c4" }

def c7Elem : Name := { name := " World ", text := " Hello ", id := "c7" }

/-! ### Calendar arithmetic shared by `datetime.fromtimestamp`, `isoformat`
and `strptime(...).timestamp()`.  Naive datetimes are interpreted in the
local timezone by Python; the model fixes the process timezone to UTC. -/

def isLeap (y : Int) : Bool :=
  (y % 4 == 0 && y % 100 != 0) || (y % 400 == 0)

def daysInMonth (y : Int) (m : Nat) : Nat :=
  if m == 2 then (if isLeap y then 29 else 28)
  else if m == 4 || m == 6 || m == 9 || m == 11 then 30
  else 31

/-- Days since 1970-01-01 of a civil date (proleptic Gregorian). -/
def daysFromCivil (y : Int) (m d : Nat) : Int :=
  let yAdj : Int := if m ≤ 2 then y - 1 else y
  let era : Int := yAdj.fdiv 400
  let yoe : Nat := (yAdj - era * 400).toNat
  let mp : Nat := if m > 2 then m - 3 else m + 9
  let doy : Nat := (153 * mp + 2) / 5 + d - 1
  let doe : Nat := yoe * 365 + yoe / 4 - yoe / 100 + doy
  era * 146097 + (doe : Int) - 719468

/-- Civil date of a count of days since 1970-01-01. -/
def civilFromDays (z0 : Int) : Int × Nat × Nat :=
  let z : Int := z0 + 719468
  let era : Int := z.fdiv 146097
  let doe : Nat := (z - era * 146097).toNat
  let yoe : Nat := (doe - doe / 1460 + doe / 36524 - doe / 146096) / 365
  let y : Int := era * 400 + (yoe : Int)
  let doy : Nat := doe - (365 * yoe + yoe / 4 - yoe / 100)
  let mp : Nat := (5 * doy + 2) / 153
  let d : Nat := doy - (153 * mp + 2) / 5 + 1
  let m : Nat := if mp < 10 then mp + 3 else mp - 9
  (if m ≤ 2 then y + 1 else y, m, d)

/-- Left-pads the decimal rendering of `n` with zeros to width `w`. -/
def padZeros (w : Nat) (n : Nat) : String :=
  let s := toString n
  String.mk (List.replicate (w - s.length) '0') ++ s

/-- Python's `datetime.fromtimestamp(sec).isoformat()` for an epoch instant given
in whole microseconds, with the process timezone fixed to UTC. -/
def fromtimestampIso (us : Int) : String :=
  let sec : Int := us.fdiv 1000000
  let micro : Nat := (us - sec * 1000000).toNat
  let days : Int := sec.fdiv 86400
  let sod : Nat := (sec - days * 86400).toNat
  let ymd := civilFromDays days
  padZeros 4 ymd.1.toNat ++ "-" ++ padZeros 2 ymd.2.1 ++ "-" ++ padZeros 2 ymd.2.2 ++
    "T" ++ padZeros 2 (sod / 3600) ++ ":" ++ padZeros 2 (sod / 60 % 60) ++ ":" ++
    padZeros 2 (sod % 60) ++ (if micro == 0 then "" else "." ++ padZeros 6 micro)

/-- Python `float(s)` for the plain decimal timestamp strings this
connector consumes, scaled to whole microseconds (exact for up to six
fractional digits; exponent, infinity and nan spellings are outside the
shapes the connector meets and are not modelled). -/
def pyFloatUs (s : String) : Option Int :=
  let chars := s.data
  let core := if chars.head? = some '-' then chars.tail else chars
  let sign : Int := if chars.head? = some '-' then -1 else 1
  let intPart := core.takeWhile Char.isDigit
  let rest := core.dropWhile Char.isDigit
  let fracDigits :=
    if rest.head? = some '.' then some (rest.tail) else
    if rest = [] then some [] else none
  match fracDigits with
  | none => none
  | some fd =>
    if fd.all Char.isDigit && (intPart ≠ [] || fd ≠ []) then
      let ip : Nat := intPart.foldl (fun a c => a * 10 + (c.toNat - 48)) 0
      let fr : Nat := ((fd.take 6).foldl (fun a c => a * 10 + (c.toNat - 48)) 0) *
        10 ^ (6 - (fd.take 6).length)
      some (sign * ((ip : Int) * 1000000 + (fr : Int)))
    else none

/-! ### `datetime.strptime` for the three formats in `DATE_FORMATS`.
The directive semantics follow CPython's `_strptime`: `%Y` is exactly four
digits; `%m`, `%d`, `%H`, `%M`, `%S` accept two digits when the two-digit
value is in range and fall back to one digit; `%z` accepts `Z` or a sign,
two hour digits, an optional colon, two minute digits and optionally
(optionally colon-separated) two second digits with an ignored fraction;
the resulting date must be a valid Gregorian date with year ≥ 1. -/

structure PyDateTime where
  year : Int
  month : Nat
  day : Nat
  hour : Nat
  minute : Nat
  second : Nat
  tz : Option Int
  deriving DecidableEq

def digitVal (c : Char) : Nat := c.toNat - 48

/-- Reads a field of one or two digits: two digits when `ok2` holds of the
two-digit value, else one digit when `ok1` holds of it. -/
def parseNum2or1 (ok2 ok1 : Nat → Bool) : List Char → Option (Nat × List Char)
  | c1 :: c2 :: rest =>
    if c1.isDigit && c2.isDigit && ok2 (10 * digitVal c1 + digitVal c2) then
      some (10 * digitVal c1 + digitVal c2, rest)
    else if c1.isDigit && ok1 (digitVal c1) then
      some (digitVal c1, c2 :: rest)
    else none
  | [c1] => if c1.isDigit && ok1 (digitVal c1) then some (digitVal c1, []) else none
  | [] => none

def parse4Digits : List Char → Option (Nat × List Char)
  | c1 :: c2 :: c3 :: c4 :: rest =>
    if c1.isDigit && c2.isDigit && c3.isDigit && c4.isDigit then
      some (1000 * digitVal c1 + 100 * digitVal c2 + 10 * digitVal c3 + digitVal c4, rest)
    else none
  | _ => none

def parse2Digits : List Char → Option (Nat × List Char)
  | c1 :: c2 :: rest =>
    if c1.isDigit && c2.isDigit then some (10 * digitVal c1 + digitVal c2, rest)
    else none
  | _ => none

def skipColon : List Char → List Char
  | ':' :: rest => rest
  | l => l

/-- Directive `%z`: UTC offset in seconds.  A trailing fractional-second field of
the offset is consumed and ignored; `datetime.timezone` rejects an offset
of a full day or more. -/
def parseTzOffset : List Char → Option (Int × List Char)
  | 'Z' :: rest => some (0, rest)
  | c :: rest =>
    if c = '+' || c = '-' then
      match parse2Digits rest with
      | none => none
      | some (hh, r1) =>
        match parse2Digits (skipColon r1) with
        | none => none
        | some (mm, r2) =>
          let withSec :=
            match parse2Digits (skipColon r2) with
            | some (ss, r3) =>
              let r4 :=
                if r3.head? = some '.' && (r3.tail.take 1).all Char.isDigit &&
                    r3.tail ≠ [] then
                  r3.tail.dropWhile Char.isDigit
                else r3
              if r3.head? = some '.' && r3.tail.takeWhile Char.isDigit = [] then
                (hh * 3600 + mm * 60, r2)
              else (hh * 3600 + mm * 60 + ss, r4)
            | none => (hh * 3600 + mm * 60, r2)
          if withSec.1 < 86400 then
            some ((if c = '-' then -(withSec.1 : Int) else (withSec.1 : Int)), withSec.2)
          else none
    else none
  | [] => none

/-- Walks the format string against the input, accumulating fields.
Directives outside those used by `DATE_FORMATS` fail the parse. -/
def strptimeAux : List Char → List Char → PyDateTime → Option PyDateTime
  | [], [], dt => some dt
  | [], _ :: _, _ => none
  | '%' :: f :: fmtRest, s, dt =>
    if f = 'Y' then
      match parse4Digits s with
      | some (v, rest) => strptimeAux fmtRest rest { dt with year := (v : Int) }
      | none => none
    else if f = 'm' then
      match parseNum2or1 (fun v => 1 ≤ v && v ≤ 12) (fun v => 1 ≤ v && v ≤ 9) s with
      | some (v, rest) => strptimeAux fmtRest rest { dt with month := v }
      | none => none
    else if f = 'd' then
      match parseNum2or1 (fun v => 1 ≤ v && v ≤ 31) (fun v => 1 ≤ v && v ≤ 9) s with
      | some (v, rest) => strptimeAux fmtRest rest { dt with day := v }
      | none => none
    else if f = 'H' then
      match parseNum2or1 (fun v => v ≤ 23) (fun v => v ≤ 9) s with
      | some (v, rest) => strptimeAux fmtRest rest { dt with hour := v }
      | none => none
    else if f = 'M' then
      match parseNum2or1 (fun v => v ≤ 59) (fun v => v ≤ 9) s with
      | some (v, rest) => strptimeAux fmtRest rest { dt with minute := v }
      | none => none
    else if f = 'S' then
      match parseNum2or1 (fun v => v ≤ 61) (fun v => v ≤ 9) s with
      | some (v, rest) => strptimeAux fmtRest rest { dt with second := v }
      | none => none
    else if f = 'z' then
      match parseTzOffset s with
      | some (off, rest) => strptimeAux fmtRest rest { dt with tz := some off }
      | none => none
    else none
  | c :: fmtRest, s, dt =>
    match s with
    | c2 :: sRest => if c = c2 then strptimeAux fmtRest sRest dt else none
    | [] => none

/-- Python's `datetime.strptime(s, fmt)` restricted to the directives of
`DATE_FORMATS`; defaults are CPython's 1900-01-01 00:00:00, and the
parsed fields must form a valid datetime. -/
def strptime (s fmt : String) : Option PyDateTime :=
  match strptimeAux fmt.data s.data
      { year := 1900, month := 1, day := 1, hour := 0, minute := 0, second := 0,
        tz := none } with
  | none => none
  | some dt =>
    if 1 ≤ dt.year && dt.day ≤ daysInMonth dt.year dt.month then some dt else none

/-- Python's `datetime.timestamp()` in whole microseconds: naive datetimes are
taken in the process timezone (UTC here); aware ones subtract their
offset. -/
def PyDateTime.timestamp (dt : PyDateTime) : Int :=
  ((daysFromCivil dt.year dt.month dt.day * 86400 +
      (dt.hour * 3600 + dt.minute * 60 + dt.second : Nat)) - dt.tz.getD 0) * 1000000

/-! ### `unstructured/ingest/connector/slack.py` -/

def DATE_FORMATS : List String :=
  ["%Y-%m-%d", "%Y-%m-%dT%H:%M:%S", "%Y-%m-%dT%H:%M:%S%z"]

/-- Python truthiness of an `Optional[str]`: `None` and the empty string
are falsy. -/
def pyTruthy : Option String → Bool
  | none => false
  | some s => s != ""

/-- Modelled from the spec: `validate_date_args` of `unstructured.utils`
(not under `src/`) — whether a time-window bound parses against the fixed
set of accepted date formats. -/
def validate_date_args (date : String) : Bool :=
  DATE_FORMATS.any fun fmt => (strptime date fmt).isSome

/-- The `SimpleSlackConfig` dataclass fields. -/
structure SimpleSlackConfig where
  channels : List String
  token : String
  oldest : Option String
  latest : Option String
  verbose : Bool := false
  deriving DecidableEq

/-- Method `SimpleSlackConfig.validate_inputs`: each bound is valid when absent
(falsy) or parseable. -/
def SimpleSlackConfig.validate_inputs (c : SimpleSlackConfig) : Bool × Bool :=
  ((if pyTruthy c.oldest then validate_date_args (c.oldest.getD "") else true),
   (if pyTruthy c.latest then validate_date_args (c.latest.getD "") else true))

/-- Method `SimpleSlackConfig.__post_init__`: raises `ValueError` when both
bounds are invalid. -/
def SimpleSlackConfig.__post_init__ (c : SimpleSlackConfig) : Except String Unit :=
  match SimpleSlackConfig.validate_inputs c with
  | (oldest_valid, latest_valid) =>
    if !oldest_valid && !latest_valid then
      Except.error "Start and/or End dates are not valid. "
    else Except.ok ()

/-- Dataclass construction: the generated `__init__` stores the fields and
then runs `__post_init__`; an error there aborts construction, yielding no
object. -/
def SimpleSlackConfig.construct (channels : List String) (token : String)
    (oldest latest : Option String) (verbose : Bool) :
    Except String SimpleSlackConfig :=
  match SimpleSlackConfig.__post_init__
      { channels := channels, token := token, oldest := oldest, latest := latest,
        verbose := verbose } with
  | Except.error e => Except.error e
  | Except.ok _ =>
    Except.ok { channels := channels, token := token, oldest := oldest,
                latest := latest, verbose := verbose }

/-- A message of the `conversations_history` / `conversations_replies`
payloads: its `ts` string and its optional `text`. -/
structure SlackMessage where
  ts : String
  text : Option String := none
  deriving DecidableEq

structure SlackFileMeta where
  date_created : String
  date_modified : String
  deriving DecidableEq

/-- The mutable state of a `SlackIngestDoc`: the dataclass defaults are
`file_exists = False` and `file_meta = None`. -/
structure DocState where
  file_exists : Option Bool := some false
  file_meta : Option SlackFileMeta := none
  deriving DecidableEq

/-- A `SlackIngestDoc` dataclass built with the defaults, as
`SlackConnector.get_ingest_docs` builds them. -/
def slackDocDefault : DocState := {}

/-- The read-only per-document inputs (channel and configured window
bounds). -/
structure SlackDocInputs where
  channel : String
  oldest : Option String := none
  latest : Option String := none

/-- An argument value passed on to the Slack SDK: a literal string, a
float timestamp, or Python `None`. -/
inductive PyArg
  | str (s : String)
  | float (us : Int)
  | pynone
  deriving DecidableEq

/-- One page of `conversations_replies`. -/
structure RepliesPage where
  messages : List SlackMessage
  has_more : Bool
  next_cursor : String

/-- The raw response object returned by `conversations_history` (a
slack_sdk `SlackResponse`): its data carries the message list under the
"messages" key, which callers must subscript — `get_file` does
(`result["messages"]`), `get_file_metadata` does not. -/
structure SlackHistoryResponse where
  messages : List SlackMessage
  deriving DecidableEq

/-- The external Slack web API as observed by one document: the
`conversations_history` response for given (channel, oldest, latest)
arguments, and the `conversations_replies` result for given (channel, ts,
cursor) arguments.  `Except.error` is a `SlackApiError`. -/
structure SlackAPI where
  history : String → PyArg → PyArg → Except String SlackHistoryResponse
  replies : String → String → Option String → Except String RepliesPage

/-- Method `SlackIngestDoc.convert_datetime`: tries each format in order,
returning the first successful `timestamp()`; an input matching no format
falls through every handler and returns `None`. -/
def SlackIngestDoc.convert_datetime (s : String) : Option Int :=
  DATE_FORMATS.findSome? fun fmt => (strptime s fmt).map PyDateTime.timestamp

def PyArg.ofTs : Option Int → PyArg
  | some us => PyArg.float us
  | none => PyArg.pynone

/-- The `oldest` argument handed to `conversations_history`: the literal
"0" when the configured bound is falsy, else the `convert_datetime` of the
bound (which is `None` when unparseable). -/
def SlackIngestDoc.oldestArg (inp : SlackDocInputs) : PyArg :=
  if pyTruthy inp.oldest then PyArg.ofTs (SlackIngestDoc.convert_datetime (inp.oldest.getD ""))
  else PyArg.str "0"

/-- The `latest` argument handed to `conversations_history`. -/
def SlackIngestDoc.latestArg (inp : SlackDocInputs) : PyArg :=
  if pyTruthy inp.latest then PyArg.ofTs (SlackIngestDoc.convert_datetime (inp.latest.getD ""))
  else PyArg.str "0"

/-- Method `SlackIngestDoc._fetch_messages`: calls `conversations_history`; a
`SlackApiError` sets `file_exists = False` and re-raises, success sets
`file_exists = True` and returns the raw response (not its message
list). -/
def SlackIngestDoc._fetch_messages (inp : SlackDocInputs) (d : DocState)
    (api : SlackAPI) : Except String SlackHistoryResponse × DocState :=
  match api.history inp.channel (SlackIngestDoc.oldestArg inp) (SlackIngestDoc.latestArg inp) with
  | Except.error e => (Except.error e, { d with file_exists := some false })
  | Except.ok resp => (Except.ok resp, { d with file_exists := some true })

/-- Lexicographic (code-point) comparison of character lists — Python's
string ordering. -/
def charListLe : List Char → List Char → Bool
  | [], _ => true
  | _ :: _, [] => false
  | a :: as, b :: bs =>
    if a.toNat < b.toNat then true
    else if b.toNat < a.toNat then false
    else charListLe as bs

/-- Python's `a <= b` on strings. -/
def strLeb (a b : String) : Bool :=
  charListLe a.data b.data

/-- Python's `list.sort()` on the timestamp strings: stable ascending sort
under lexicographic (code-point) string comparison, which is extensionally
insertion sort under that (total, transitive, antisymmetric) order. -/
def pySort (l : List String) : List String :=
  List.insertionSort (fun a b => strLeb a b = true) l

/-- Python's `datetime.fromtimestamp(float(ts)).isoformat()` for one timestamp
string (`none` is the `ValueError` of an unconvertible `float` argument). -/
def tsToIso (ts : String) : Option String :=
  (pyFloatUs ts).map fromtimestampIso

/-- Iterating the raw `conversations_history` response in a for loop goes
through slack_sdk's page iterator, which yields the response pages (the
response object itself first), not the messages; subscripting a page with
"ts" goes through the response's item lookup, which is `data.get("ts")`
and answers Python `None` because the response data has no top-level "ts"
key.  The subscript comprehension over the raw response therefore yields
one `None` per page — the single first page here; further pages would only
add more `None` entries without changing where the computation fails. -/
def SlackHistoryResponse.iterTs (_resp : SlackHistoryResponse) : List (Option String) :=
  [none]

def allSomeStrs : List (Option String) → Option (List String)
  | [] => some []
  | none :: _ => none
  | some s :: rest => (allSomeStrs rest).map fun l => s :: l

/-- Python's `list.sort()` on the subscript values: a list of strings
sorts lexicographically; a list of length at most one involves no
comparison; any comparison against `None` raises `TypeError`. -/
def pySortOpt (l : List (Option String)) : Except String (List (Option String)) :=
  match allSomeStrs l with
  | some strs => Except.ok ((pySort strs).map some)
  | none =>
    if l.length ≤ 1 then Except.ok l
    else Except.error "TypeError: comparison not supported between instances of NoneType and str"

/-- Python's `float(x)` on a subscript value, in whole microseconds:
`float(None)` raises `TypeError`, an unconvertible string raises
`ValueError`. -/
def pyFloatArg : Option String → Except String Int
  | none =>
    Except.error "TypeError: float() argument must be a string or a real number, not NoneType"
  | some s =>
    match pyFloatUs s with
    | some v => Except.ok v
    | none => Except.error "ValueError: could not convert string to float"

/-- The tail of `get_file_metadata` after the `ts` comprehension: sort the
subscript values, convert the first and last to local datetimes when the
list is non-empty, and assign `file_meta`.  On an empty list the locals
`created`/`modified` were never assigned, so the constructor call raises
`UnboundLocalError` before any assignment; a raising conversion likewise
leaves `file_meta` untouched. -/
def gfmFromTs (d1 : DocState) (timestamps : List (Option String)) :
    Except String Unit × DocState :=
  match pySortOpt timestamps with
  | Except.error e => (Except.error e, d1)
  | Except.ok sorted =>
    match sorted with
    | [] =>
      (Except.error "UnboundLocalError: local variable referenced before assignment", d1)
    | first :: rest =>
      match pyFloatArg first,
          pyFloatArg ((first :: rest).getLast (List.cons_ne_nil first rest)) with
      | Except.ok cUs, Except.ok mUs =>
        (Except.ok (),
         { d1 with file_meta := some (SlackFileMeta.mk (fromtimestampIso cUs) (fromtimestampIso mUs)) })
      | Except.error e, _ => (Except.error e, d1)
      | _, Except.error e => (Except.error e, d1)

/-- Method `SlackIngestDoc.get_file_metadata`: when no messages are
supplied it fetches — but `_fetch_messages` returns the raw
`conversations_history` response, not `result["messages"]` (contrast
`get_file`), so the `ts` comprehension iterates the response's pages and
collects `None` subscripts; with supplied messages it collects their `ts`
strings.  Either way the tail sorts, converts the first and last, and
assigns `file_meta`. -/
def SlackIngestDoc.get_file_metadata (inp : SlackDocInputs) (d : DocState)
    (api : SlackAPI) (messages : Option (List SlackMessage)) :
    Except String Unit × DocState :=
  match messages with
  | some ms => gfmFromTs d (ms.map fun m => some m.ts)
  | none =>
    match SlackIngestDoc._fetch_messages inp d api with
    | (Except.error e, d1) => (Except.error e, d1)
    | (Except.ok resp, d1) => gfmFromTs d1 (SlackHistoryResponse.iterTs resp)

/-- The `exists` property: probes (via `get_file_metadata`, hence
`_fetch_messages`) only when `file_exists` is `None`, then returns the
stored flag. -/
def SlackIngestDoc.exists (inp : SlackDocInputs) (d : DocState) (api : SlackAPI) :
    Except String (Option Bool) × DocState :=
  if d.file_exists = none then
    match SlackIngestDoc.get_file_metadata inp d api none with
    | (Except.error e, d1) => (Except.error e, d1)
    | (Except.ok _, d1) => (Except.ok d1.file_exists, d1)
  else (Except.ok d.file_exists, d)

/-- Outcome of a call that may return, raise, or (in the model, measured
by fuel) still be looping. -/
inductive Outcome
  | ok
  | raised (e : String)
  | diverge
  deriving DecidableEq

/-- Python's `str(text_elem.text)` for the optional XML text. -/
def pyStr : Option String → String
  | none => "None"
  | some s => s

/-- The inner `for reply in response["messages"]` body: each reply text is
joined onto the element text; a `None` reply text makes `"".join` raise
`TypeError`. -/
def appendReplies : List SlackMessage → Option String → Except String (Option String)
  | [], t => Except.ok t
  | r :: rs, t =>
    match r.text with
    | none => Except.error "TypeError: sequence item 2: expected str instance"
    | some s => appendReplies rs (some (pyStr t ++ " <reply> " ++ s))

/-- The `while True` pagination loop over `conversations_replies` for one
message: a `SlackApiError` is caught, printed, and the same request is
retried; on success the replies are appended, the loop ends when
`has_more` is false, else it continues from `next_cursor`.  The `Nat`
argument bounds the number of iterations the model runs: `none` means the
loop was still running when the bound ran out (with a persistently failing
API the source loops forever). -/
def repliesLoop (api : SlackAPI) (channel ts : String) :
    Option String → Option String → Nat → Option (Except String (Option String))
  | _, _, 0 => none
  | cursor, t, fuel + 1 =>
    match api.replies channel ts cursor with
    | Except.error _ => repliesLoop api channel ts cursor t fuel
    | Except.ok page =>
      match appendReplies page.messages t with
      | Except.error e => some (Except.error e)
      | Except.ok t2 =>
        if page.has_more then repliesLoop api channel ts (some page.next_cursor) t2 fuel
        else some (Except.ok t2)

/-- The outer `for message in result["messages"]` loop of `get_file`,
collecting the final text of each per-message XML element. -/
def buildTexts (api : SlackAPI) (channel : String) (fuel : Nat) :
    List SlackMessage → Option (Except String (List (Option String)))
  | [] => some (Except.ok [])
  | m :: ms =>
    match repliesLoop api channel m.ts none m.text fuel with
    | none => none
    | some (Except.error e) => some (Except.error e)
    | some (Except.ok t) =>
      match buildTexts api channel fuel ms with
      | none => none
      | some (Except.error e) => some (Except.error e)
      | some (Except.ok ts2) => some (Except.ok (t :: ts2))

/-- The staged XML file, abstracted to the list of per-message final
texts that `ElementTree.write` serializes. -/
def StagedFile : Type := List (Option String)

/-- Modelled from the spec: the `BaseIngestDoc.skip_if_file_exists`
decorator (from `unstructured.ingest.interfaces`, not under `src/`) — when
the local staging file already exists the fetch routine does not run. -/
def skip_if_file_exists (staged : Option StagedFile) : Bool :=
  staged.isSome

/-- Method `SlackIngestDoc.get_file`: skip when already staged; otherwise fetch
the channel history (an API error there propagates with no file written),
build the XML texts through the replies loops, compute the metadata from
the fetched messages, and only then write the staging file.  The triple
returned is (outcome, document state, staging file). -/
def SlackIngestDoc.get_file (inp : SlackDocInputs) (d : DocState)
    (staged : Option StagedFile) (api : SlackAPI) (fuel : Nat) :
    Outcome × DocState × Option StagedFile :=
  if skip_if_file_exists staged then (Outcome.ok, d, staged)
  else
    match SlackIngestDoc._fetch_messages inp d api with
    | (Except.error e, d1) => (Outcome.raised e, d1, none)
    | (Except.ok result, d1) =>
      match buildTexts api inp.channel fuel result.messages with
      | none => (Outcome.diverge, d1, none)
      | some (Except.error e) => (Outcome.raised e, d1, none)
      | some (Except.ok texts) =>
        match SlackIngestDoc.get_file_metadata inp d1 api (some result.messages) with
        | (Except.error e, d2) => (Outcome.raised e, d2, none)
        | (Except.ok _, d2) => (Outcome.ok, d2, some texts)

/-! ### Concrete documents and API environments used by the witnesses and
counterexamples. -/

def inp0 : SlackDocInputs := { channel := "general" }

/-- An API whose history call succeeds with one message and whose replies
calls return an empty final page. -/
def probeApi : SlackAPI :=
  { history := fun _ _ _ =>
      Except.ok { messages := [{ ts := "100", text := some "hi" }] },
    replies := fun _ _ _ =>
      Except.ok { messages := [], has_more := false, next_cursor := "" } }

/-- An API whose history call raises a `SlackApiError`. -/
def apiHistErr : SlackAPI :=
  { history := fun _ _ _ => Except.error "channel_not_found",
    replies := fun _ _ _ =>
      Except.ok { messages := [], has_more := false, next_cursor := "" } }

/-- An API whose history call succeeds but whose replies calls always
raise a `SlackApiError`. -/
def apiRepliesErr : SlackAPI :=
  { history := fun _ _ _ =>
      Except.ok { messages := [{ ts := "100", text := some "hi" }] },
    replies := fun _ _ _ => Except.error "ratelimited" }

/-- Messages whose `ts` strings sort differently as strings than as
numbers. -/
def c3CexMsgs : List SlackMessage := [{ ts := "99" }, { ts := "100" }]

/-- The spec's metadata-window scenario: timestamps 100, 500, 250 out of
order. -/
def c3DemoMsgs : List SlackMessage := [{ ts := "100" }, { ts := "500" }, { ts := "250" }]

/-! ### SHA-256 (`hashlib.sha256(...).hexdigest()`), executable over `Nat`
with arithmetic mod 2^32. -/

def rotr (n w : Nat) : Nat := w / 2 ^ n + w % 2 ^ n * 2 ^ (32 - n) % 4294967296

def shr (n w : Nat) : Nat := w / 2 ^ n

def chHash (x y z : Nat) : Nat := (x &&& y) ^^^ ((x ^^^ 4294967295) &&& z)

def majHash (x y z : Nat) : Nat := (x &&& y) ^^^ (x &&& z) ^^^ (y &&& z)

def bigSigma0 (x : Nat) : Nat := rotr 2 x ^^^ rotr 13 x ^^^ rotr 22 x

def bigSigma1 (x : Nat) : Nat := rotr 6 x ^^^ rotr 11 x ^^^ rotr 25 x

def smallSigma0 (x : Nat) : Nat := rotr 7 x ^^^ rotr 18 x ^^^ shr 3 x

def smallSigma1 (x : Nat) : Nat := rotr 17 x ^^^ rotr 19 x ^^^ shr 10 x

structure Sha256St where
  a : Nat
  b : Nat
  c : Nat
  d : Nat
  e : Nat
  f : Nat
  g : Nat
  h : Nat

def sha256Init : Sha256St :=
  { a := 1779033703, b := 3144134277, c := 1013904242, d := 2773480762,
    e := 1359893119, f := 2600822924, g := 528734635, h := 1541459225 }

def sha256K : List Nat :=
  [1116352408, 1899447441, 3049323471, 3921009573,
   961987163, 1508970993, 2453635748, 2870763221,
   3624381080, 310598401, 607225278, 1426881987,
   1925078388, 2162078206, 2614888103, 3248222580,
   3835390401, 4022224774, 264347078, 604807628,
   770255983, 1249150122, 1555081692, 1996064986,
   2554220882, 2821834349, 2952996808, 3210313671,
   3336571891, 3584528711, 113926993, 338241895,
   666307205, 773529912, 1294757372, 1396182291,
   1695183700, 1986661051, 2177026350, 2456956037,
   2730485921, 2820302411, 3259730800, 3345764771,
   3516065817, 3600352804, 4094571909, 275423344,
   430227734, 506948616, 659060556, 883997877,
   958139571, 1322822218, 1537002063, 1747873779,
   1955562222, 2024104815, 2227730452, 2361852424,
   2428436474, 2756734187, 3204031479, 3329325298]

def sha256Round (st : Sha256St) (kw : Nat × Nat) : Sha256St :=
  let t1 := (st.h + bigSigma1 st.e + chHash st.e st.f st.g + kw.1 + kw.2) % 4294967296
  let t2 := (bigSigma0 st.a + majHash st.a st.b st.c) % 4294967296
  { a := (t1 + t2) % 4294967296, b := st.a, c := st.b, d := st.c,
    e := (st.d + t1) % 4294967296, f := st.e, g := st.f, h := st.g }

/-- Extends the 16-word schedule by `n` further words. -/
def extendW : List Nat → Nat → List Nat
  | w, 0 => w
  | w, n + 1 =>
    let l := w.length
    let nw := (smallSigma1 (w.getD (l - 2) 0) + w.getD (l - 7) 0 +
      smallSigma0 (w.getD (l - 15) 0) + w.getD (l - 16) 0) % 4294967296
    extendW (w ++ [nw]) n

def sha256Schedule (block : List Nat) : List Nat :=
  extendW ((List.range 16).map fun j =>
    block.getD (4 * j) 0 * 16777216 + block.getD (4 * j + 1) 0 * 65536 +
    block.getD (4 * j + 2) 0 * 256 + block.getD (4 * j + 3) 0) 48

def sha256Block (st : Sha256St) (block : List Nat) : Sha256St :=
  let c := (sha256K.zip (sha256Schedule block)).foldl sha256Round st
  { a := (st.a + c.a) % 4294967296, b := (st.b + c.b) % 4294967296,
    c := (st.c + c.c) % 4294967296, d := (st.d + c.d) % 4294967296,
    e := (st.e + c.e) % 4294967296, f := (st.f + c.f) % 4294967296,
    g := (st.g + c.g) % 4294967296, h := (st.h + c.h) % 4294967296 }

/-- Pads a byte message to a multiple of 64 bytes: 0x80, zeros, and the
bit length on 8 big-endian bytes. -/
def padMessage (msg : List Nat) : List Nat :=
  let len := msg.length
  msg ++ [128] ++ List.replicate ((119 - len % 64) % 64) 0 ++
    (List.range 8).map fun i => len * 8 / 2 ^ (8 * (7 - i)) % 256

def chunks64 (l : List Nat) : List (List Nat) :=
  if h : l = [] then []
  else
    have : (List.drop 64 l).length < l.length := by
      have hpos : 0 < l.length := List.length_pos.mpr h
      simp only [List.length_drop]
      omega
    l.take 64 :: chunks64 (l.drop 64)
termination_by l.length

def sha256Digest (msg : List Nat) : Sha256St :=
  (chunks64 (padMessage msg)).foldl sha256Block sha256Init

def hexDigit (d : Nat) : Char :=
  if d < 10 then Char.ofNat (48 + d) else Char.ofNat (87 + d)

/-- A 32-bit word as eight lowercase hex characters. -/
def hex8 (n : Nat) : List Char :=
  [hexDigit (n / 268435456 % 16), hexDigit (n / 16777216 % 16),
   hexDigit (n / 1048576 % 16), hexDigit (n / 65536 % 16),
   hexDigit (n / 4096 % 16), hexDigit (n / 256 % 16),
   hexDigit (n / 16 % 16), hexDigit (n % 16)]

def sha256HexChars (msg : List Nat) : List Char :=
  let st := sha256Digest msg
  hex8 st.a ++ hex8 st.b ++ hex8 st.c ++ hex8 st.d ++
    hex8 st.e ++ hex8 st.f ++ hex8 st.g ++ hex8 st.h

/-- Python's `hashlib.sha256(msg).hexdigest()`. -/
def sha256Hex (msg : List Nat) : String :=
  String.mk (sha256HexChars msg)

/-- UTF-8 encoding of one code point. -/
def utf8Bytes (c : Char) : List Nat :=
  let n := c.toNat
  if n < 128 then [n]
  else if n < 2048 then [192 + n / 64, 128 + n % 64]
  else if n < 65536 then [224 + n / 4096, 128 + n / 64 % 64, 128 + n % 64]
  else [240 + n / 262144, 128 + n / 4096 % 64, 128 + n / 64 % 64, 128 + n % 64]

/-- Python's `str.encode()`: the UTF-8 bytes of a string. -/
def strBytes (s : String) : List Nat :=
  s.data.foldr (fun c acc => utf8Bytes c ++ acc) []

/-- The f-string rendering of the optional page number (`None` when
absent). -/
def pyStrOptInt : Option Int → String
  | none => "None"
  | some n => toString n

def isHexChar (c : Char) : Bool :=
  ('0' ≤ c && c ≤ '9') || ('a' ≤ c && c ≤ 'f')

/-- Whether every character of a string is a lowercase hex digit. -/
def isHexStr (s : String) : Bool :=
  s.data.all isHexChar

/-- Method `Name.id_to_hash`: hashes the f-string of text, page number and
sequence index, truncates the hex digest to its first 32 characters,
assigns it to `self.id` and returns it: (returned id, element after the
call). -/
def Name.id_to_hash (e : Name) (index_in_sequence : Int) : String × Name :=
  let data := e.text ++ pyStrOptInt e.metadata.page_number ++ toString index_in_sequence
  let hsh := String.mk ((sha256Hex (strBytes data)).data.take 32)
  (hsh, { e with id := hsh })

/-! ### Helper lemmas -/

lemma foldl_pair (cs : List (PyVal → PyVal)) :
    ∀ a b : PyVal,
      cs.foldl (fun (p : PyVal × PyVal) cleaner => (cleaner p.1, cleaner p.2)) (a, b) =
        (cs.foldl (fun v cleaner => cleaner v) a, cs.foldl (fun v cleaner => cleaner v) b) := by
  induction cs with
  | nil => intro a b; rfl
  | cons c cs ih => intro a b; simpa only [List.foldl] using ih (c a) (c b)

lemma cleanRun_eq_pair (e : Name) (cleaners : List (PyVal → PyVal)) :
    Name.cleanRun e cleaners =
      (cleaners.foldl (fun v cleaner => cleaner v) (PyVal.str e.text),
       cleaners.foldl (fun v cleaner => cleaner v) (PyVal.str e.name)) :=
  foldl_pair cleaners _ _

lemma hexDigit_isHex (d : Nat) (hd : d < 16) : isHexChar (hexDigit d) = true := by
  have hall : ∀ x < 16, isHexChar (hexDigit x) = true := by decide
  exact hall d hd

lemma hex8_all_hex (n : Nat) : (hex8 n).all isHexChar = true := by
  have h16 : (0 : Nat) < 16 := by decide
  simp only [hex8, List.all_cons, List.all_nil, Bool.and_true, Bool.and_eq_true]
  exact ⟨hexDigit_isHex _ (Nat.mod_lt _ h16), hexDigit_isHex _ (Nat.mod_lt _ h16),
    hexDigit_isHex _ (Nat.mod_lt _ h16), hexDigit_isHex _ (Nat.mod_lt _ h16),
    hexDigit_isHex _ (Nat.mod_lt _ h16), hexDigit_isHex _ (Nat.mod_lt _ h16),
    hexDigit_isHex _ (Nat.mod_lt _ h16), hexDigit_isHex _ (Nat.mod_lt _ h16)⟩

lemma sha256HexChars_length (m : List Nat) : (sha256HexChars m).length = 64 := by
  simp [sha256HexChars, hex8, List.length_append]

lemma sha256HexChars_all_hex (m : List Nat) : (sha256HexChars m).all isHexChar = true := by
  simp only [sha256HexChars, List.all_append, Bool.and_eq_true]
  exact ⟨⟨⟨⟨⟨⟨⟨hex8_all_hex _, hex8_all_hex _⟩, hex8_all_hex _⟩, hex8_all_hex _⟩,
    hex8_all_hex _⟩, hex8_all_hex _⟩, hex8_all_hex _⟩, hex8_all_hex _⟩

lemma all_take_of_all {p : Char → Bool} {l : List Char} (n : Nat)
    (h : l.all p = true) : (l.take n).all p = true := by
  rw [List.all_eq_true] at h ⊢
  intro x hx
  exact h x ((List.take_sublist n l).subset hx)

/-! ### Claim theorems -/

/-- Claim C1.  The claim states that two `Name` elements with identical
`name`/`text` and differing present datestamps are unequal.  On the code
this fails: `has_datestamp` checks membership of the string
"self.datestamp" in `globals()`, which never holds, so `__eq__` never
reaches the datestamp comparison and answers true for `c1Left`/`c1Right`
although both datestamps are present and differ. -/
theorem claim1_eq_ignores_present_datestamps :
    Name.__eq__ c1Left c1Right = true ∧
    c1Left.datestamp = some 100 ∧ c1Right.datestamp = some 200 ∧
    c1Left.name = c1Right.name ∧ c1Left.text = c1Right.text ∧
    Name.has_datestamp c1Left = false := by
  decide

/-- Claim C4: when the final result of threading the transforms over
`text` or over `name` is not a string, `apply` raises the
cleaner-contract error ("Cleaner produced a non-string output.") and the
element keeps its prior field values. -/
theorem claim4_apply_nonstring_error (e : Name) (cleaners : List (PyVal → PyVal))
    (h : ((Name.cleanRun e cleaners).1.isStr && (Name.cleanRun e cleaners).2.isStr) = false) :
    Name.apply e cleaners = (Except.error "Cleaner produced a non-string output.", e) := by
  rcases hcr : Name.cleanRun e cleaners with ⟨ft, fn⟩
  rw [hcr] at h
  unfold Name.apply
  rw [hcr]
  cases ft <;> cases fn <;> simp_all [PyVal.isStr]

/-- Witness for C4: a cleaner returning the integer 1 makes `apply`
fail with the contract error and leave the element unchanged. -/
theorem claim4_witness :
    Name.apply c4Elem [badCleaner] =
      (Except.error "Cleaner produced a non-string output.", c4Elem) :=
  claim4_apply_nonstring_error c4Elem [badCleaner] (by decide)

/-- Claim C7: `apply` threads the transforms left to right over `text`
and over `name`; when both compositions produce strings, the final fields
are exactly those compositions applied to the original values. -/
theorem claim7_apply_composition (e : Name) (cleaners : List (PyVal → PyVal))
    (t n : String)
    (ht : cleaners.foldl (fun v cleaner => cleaner v) (PyVal.str e.text) = PyVal.str t)
    (hn : cleaners.foldl (fun v cleaner => cleaner v) (PyVal.str e.name) = PyVal.str n) :
    Name.apply e cleaners = (Except.ok (), { e with text := t, name := n }) := by
  unfold Name.apply
  rw [cleanRun_eq_pair, ht, hn]

/-- Witness for C7: transforms `[strip, lowercase]` on text " Hello "
(and name " World ") yield "hello" (and "world"). -/
theorem claim7_witness :
    Name.apply c7Elem [pyStrip, pyLower] =
      (Except.ok (), { c7Elem with text := "hello", name := "world" }) :=
  claim7_apply_composition c7Elem [pyStrip, pyLower] "hello" "world" (by decide) (by decide)

/-- Claim C9: on the empty message sequence `get_file_metadata` assigns
neither `created` nor `modified`, so the `SlackFileMeta` construction
raises `UnboundLocalError` and no metadata record is produced or stored —
the document state is returned untouched. -/
theorem claim9_empty_messages_unbound (inp : SlackDocInputs) (d : DocState)
    (api : SlackAPI) :
    SlackIngestDoc.get_file_metadata inp d api (some []) =
      (Except.error "UnboundLocalError: local variable referenced before assignment", d) :=
  rfl

/-- Claim C5: `id_to_hash` returns the first 32 hex characters of the
SHA-256 of the concatenated text, page number and sequence index,
overwrites the element id with that value (leaving `text` as it was), the
value is a 32-character hexadecimal string, and re-invocation on the
updated element with the same sequence index returns the same string. -/
theorem claim5_id_to_hash_deterministic (e : Name) (i : Int) :
    (Name.id_to_hash e i).1 =
      String.mk ((sha256Hex (strBytes
        (e.text ++ pyStrOptInt e.metadata.page_number ++ toString i))).data.take 32) ∧
    (Name.id_to_hash e i).2.id = (Name.id_to_hash e i).1 ∧
    (Name.id_to_hash e i).2.text = e.text ∧
    (Name.id_to_hash e i).1.length = 32 ∧
    isHexStr (Name.id_to_hash e i).1 = true ∧
    (Name.id_to_hash ((Name.id_to_hash e i).2) i).1 = (Name.id_to_hash e i).1 := by
  refine ⟨rfl, rfl, rfl, ?_, ?_, rfl⟩
  · show (String.mk ((sha256HexChars _).take 32)).length = 32
    simp [String.length, List.length_take, sha256HexChars_length]
  · show ((sha256HexChars _).take 32).all isHexChar = true
    exact all_take_of_all 32 (sha256HexChars_all_hex _)

/-- Claim C8: constructing a `SimpleSlackConfig` raises the eager
validation error exactly when both the supplied `oldest` and the supplied
`latest` bound fail to parse against `DATE_FORMATS`; in every other case
(at least one bound parseable or absent) the fully populated object is
returned. -/
theorem claim8_config_validation (channels : List String) (token : String)
    (oldest latest : Option String) (verbose : Bool) :
    (SimpleSlackConfig.construct channels token oldest latest verbose
        = Except.error "Start and/or End dates are not valid. "
      ↔ ((pyTruthy oldest = true ∧ validate_date_args (oldest.getD "") = false)
         ∧ (pyTruthy latest = true ∧ validate_date_args (latest.getD "") = false)))
    ∧ (SimpleSlackConfig.construct channels token oldest latest verbose
        = Except.error "Start and/or End dates are not valid. "
       ∨ SimpleSlackConfig.construct channels token oldest latest verbose
        = Except.ok { channels := channels, token := token, oldest := oldest,
                      latest := latest, verbose := verbose }) := by
  cases ho : pyTruthy oldest <;> cases hl : pyTruthy latest <;>
    cases hvo : validate_date_args (oldest.getD "") <;>
    cases hvl : validate_date_args (latest.getD "") <;>
    simp_all [SimpleSlackConfig.construct, SimpleSlackConfig.__post_init__,
      SimpleSlackConfig.validate_inputs]

/-- Claim C10: a string that matches none of the accepted date formats
makes `convert_datetime` fall through every handler and return `None`
(rather than raising), and such a bound supplied as `oldest`/`latest` is
passed on to `conversations_history` as `None`. -/
theorem claim10_unparseable_bound_is_none (s : String)
    (h : ∀ fmt ∈ DATE_FORMATS, strptime s fmt = none) :
    SlackIngestDoc.convert_datetime s = none ∧
    (∀ inp : SlackDocInputs, inp.oldest = some s → s ≠ "" →
       SlackIngestDoc.oldestArg inp = PyArg.pynone) ∧
    (∀ inp : SlackDocInputs, inp.latest = some s → s ≠ "" →
       SlackIngestDoc.latestArg inp = PyArg.pynone) := by
  have h1 := h "%Y-%m-%d" (by simp [DATE_FORMATS])
  have h2 := h "%Y-%m-%dT%H:%M:%S" (by simp [DATE_FORMATS])
  have h3 := h "%Y-%m-%dT%H:%M:%S%z" (by simp [DATE_FORMATS])
  have hcd : SlackIngestDoc.convert_datetime s = none := by
    simp [SlackIngestDoc.convert_datetime, DATE_FORMATS, List.findSome?, h1, h2, h3]
  refine ⟨hcd, ?_, ?_⟩
  · intro inp hio hs
    have hps : pyTruthy (some s) = true := by
      simp only [pyTruthy, bne_iff_ne, ne_eq]
      exact hs
    simp [SlackIngestDoc.oldestArg, hio, hps, hcd, PyArg.ofTs]
  · intro inp hil hs
    have hps : pyTruthy (some s) = true := by
      simp only [pyTruthy, bne_iff_ne, ne_eq]
      exact hs
    simp [SlackIngestDoc.latestArg, hil, hps, hcd, PyArg.ofTs]

/-- Witness for C10: "not-a-date" parses under no accepted format, so
`convert_datetime` answers `None` and the `oldest` argument passed to the
history call is `None`. -/
theorem claim10_witness :
    SlackIngestDoc.convert_datetime "not-a-date" = none ∧
    SlackIngestDoc.oldestArg
        { channel := "general", oldest := some "not-a-date", latest := none } =
      PyArg.pynone :=
  ⟨(claim10_unparseable_bound_is_none "not-a-date" (by decide)).1,
   (claim10_unparseable_bound_is_none "not-a-date" (by decide)).2.1
      { channel := "general", oldest := some "not-a-date", latest := none } rfl
      (by decide)⟩

lemma charListLe_refl : ∀ l : List Char, charListLe l l = true
  | [] => rfl
  | a :: as => by simp [charListLe, charListLe_refl as]

lemma strLeb_refl (a : String) : strLeb a a = true :=
  charListLe_refl a.data

lemma charListLe_total : ∀ a b : List Char, charListLe a b = true ∨ charListLe b a = true
  | [], _ => Or.inl rfl
  | _ :: _, [] => Or.inr rfl
  | a :: as, b :: bs => by
    rcases Nat.lt_trichotomy a.toNat b.toNat with h | h | h
    · left; simp [charListLe, h]
    · have hnn : ¬ a.toNat < b.toNat := by omega
      have hnn2 : ¬ b.toNat < a.toNat := by omega
      rcases charListLe_total as bs with ih | ih
      · left; simp [charListLe, hnn, hnn2, ih]
      · right; simp [charListLe, hnn, hnn2, ih]
    · right; simp [charListLe, h]

lemma charListLe_trans :
    ∀ a b c : List Char, charListLe a b = true → charListLe b c = true →
      charListLe a c = true
  | [], _, _, _, _ => rfl
  | _ :: _, [], _, h1, _ => by simp [charListLe] at h1
  | _ :: _, _ :: _, [], _, h2 => by simp [charListLe] at h2
  | a :: as, b :: bs, c :: cs, h1, h2 => by
    simp only [charListLe] at h1 h2 ⊢
    rcases Nat.lt_trichotomy a.toNat b.toNat with hab | hab | hab
    · rcases Nat.lt_trichotomy b.toNat c.toNat with hbc | hbc | hbc
      · rw [if_pos (show a.toNat < c.toNat by omega)]
      · rw [if_pos (show a.toNat < c.toNat by omega)]
      · rw [if_neg (show ¬ b.toNat < c.toNat by omega), if_pos hbc] at h2
        simp at h2
    · rw [if_neg (show ¬ a.toNat < b.toNat by omega),
        if_neg (show ¬ b.toNat < a.toNat by omega)] at h1
      rcases Nat.lt_trichotomy b.toNat c.toNat with hbc | hbc | hbc
      · rw [if_pos (show a.toNat < c.toNat by omega)]
      · rw [if_neg (show ¬ b.toNat < c.toNat by omega),
          if_neg (show ¬ c.toNat < b.toNat by omega)] at h2
        rw [if_neg (show ¬ a.toNat < c.toNat by omega),
          if_neg (show ¬ c.toNat < a.toNat by omega)]
        exact charListLe_trans as bs cs h1 h2
      · rw [if_neg (show ¬ b.toNat < c.toNat by omega), if_pos hbc] at h2
        simp at h2
    · rw [if_neg (show ¬ a.toNat < b.toNat by omega), if_pos hab] at h1
      simp at h1

lemma charListLe_antisymm :
    ∀ a b : List Char, charListLe a b = true → charListLe b a = true → a = b
  | [], [], _, _ => rfl
  | [], _ :: _, _, h2 => by simp [charListLe] at h2
  | _ :: _, [], h1, _ => by simp [charListLe] at h1
  | a :: as, b :: bs, h1, h2 => by
    simp only [charListLe] at h1 h2
    by_cases hab : a.toNat < b.toNat
    · have hnba : ¬ b.toNat < a.toNat := by omega
      rw [if_neg hnba, if_pos hab] at h2
      simp at h2
    · by_cases hba : b.toNat < a.toNat
      · rw [if_neg hab, if_pos hba] at h1
        simp at h1
      · rw [if_neg hab, if_neg hba] at h1
        rw [if_neg hba, if_neg hab] at h2
        have hn : a.toNat = b.toNat := by omega
        have hEq : a = b := by ext; exact hn
        rw [hEq, charListLe_antisymm as bs h1 h2]

instance : IsTotal String (fun a b => strLeb a b = true) :=
  ⟨fun a b => charListLe_total a.data b.data⟩

instance : IsTrans String (fun a b => strLeb a b = true) :=
  ⟨fun a b c => charListLe_trans a.data b.data c.data⟩

instance : IsAntisymm String (fun a b => strLeb a b = true) :=
  ⟨fun a b h1 h2 => by
    have hd := charListLe_antisymm a.data b.data h1 h2
    cases a
    cases b
    exact congrArg String.mk hd⟩

lemma sorted_cons_le {x : String} {l : List String}
    (hs : List.Sorted (fun a b => strLeb a b = true) (x :: l)) :
    ∀ t ∈ x :: l, strLeb x t = true := by
  intro t ht
  rcases List.mem_cons.mp ht with h | h
  · subst h; exact strLeb_refl t
  · exact List.rel_of_sorted_cons hs t h

lemma sorted_le_getLast :
    ∀ (l : List String) (hne : l ≠ []),
      List.Sorted (fun a b => strLeb a b = true) l →
      ∀ t ∈ l, strLeb t (l.getLast hne) = true
  | [], hne, _, _, _ => absurd rfl hne
  | [a], _, _, t, ht => by
    have h : t = a := by simpa using ht
    subst h
    exact strLeb_refl t
  | a :: b :: m, _, hs, t, ht => by
    have hbm : (b :: m) ≠ [] := List.cons_ne_nil b m
    rw [List.getLast_cons hbm]
    rcases List.mem_cons.mp ht with h | h
    · subst h
      exact List.rel_of_sorted_cons hs _ (List.getLast_mem hbm)
    · exact sorted_le_getLast (b :: m) hbm (List.Sorted.of_cons hs) t h

lemma allSomeStrs_map_some : ∀ l : List String, allSomeStrs (l.map some) = some l
  | [] => rfl
  | s :: rest => by simp [allSomeStrs, allSomeStrs_map_some rest]

lemma pySortOpt_map_some (l : List String) :
    pySortOpt (l.map some) = Except.ok ((pySort l).map some) := by
  simp [pySortOpt, allSomeStrs_map_some]

lemma getLast_map_some : ∀ (f : String) (r : List String),
    (some f :: r.map some).getLast (List.cons_ne_nil (some f) (r.map some)) =
      some ((f :: r).getLast (List.cons_ne_nil f r))
  | _, [] => rfl
  | _, b :: m => getLast_map_some b m

lemma gfmFromTs_congr (d : DocState) {t1 t2 : List (Option String)}
    (h : pySortOpt t1 = pySortOpt t2) : gfmFromTs d t1 = gfmFromTs d t2 := by
  simp only [gfmFromTs, h]

/-- The common behaviour of `get_file_metadata` on a supplied non-empty
message list whose timestamps all convert: the stored window is the
lexicographic minimum and maximum of the `ts` strings. -/
lemma get_file_metadata_minmax (inp : SlackDocInputs) (d : DocState) (api : SlackAPI)
    (msgs : List SlackMessage) (hne : msgs ≠ [])
    (hall : (msgs.map SlackMessage.ts).all (fun t => (tsToIso t).isSome) = true) :
    ∃ mn mx created modified,
      mn ∈ msgs.map SlackMessage.ts ∧ mx ∈ msgs.map SlackMessage.ts ∧
      (∀ t ∈ msgs.map SlackMessage.ts, strLeb mn t = true ∧ strLeb t mx = true) ∧
      tsToIso mn = some created ∧ tsToIso mx = some modified ∧
      SlackIngestDoc.get_file_metadata inp d api (some msgs) =
        (Except.ok (), { d with file_meta := some (SlackFileMeta.mk created modified) }) := by
  have hperm := List.perm_insertionSort (fun a b => strLeb a b = true) (msgs.map SlackMessage.ts)
  have hsorted := List.sorted_insertionSort (fun a b => strLeb a b = true) (msgs.map SlackMessage.ts)
  have htne : msgs.map SlackMessage.ts ≠ [] := by
    cases msgs with
    | nil => exact absurd rfl hne
    | cons a l => simp
  have hpne : pySort (msgs.map SlackMessage.ts) ≠ [] := by
    intro h0
    apply htne
    have hl := hperm.length_eq
    rw [show List.insertionSort (fun a b => strLeb a b = true) (msgs.map SlackMessage.ts)
          = pySort (msgs.map SlackMessage.ts) from rfl, h0] at hl
    exact List.length_eq_zero.mp hl.symm
  obtain ⟨first, rest, hcons⟩ : ∃ f r, pySort (msgs.map SlackMessage.ts) = f :: r := by
    cases hps : pySort (msgs.map SlackMessage.ts) with
    | nil => exact absurd hps hpne
    | cons f r => exact ⟨f, r, rfl⟩
  have hsorted2 : List.Sorted (fun a b => strLeb a b = true) (first :: rest) := by
    rw [← hcons]; exact hsorted
  have hmemfirst : first ∈ msgs.map SlackMessage.ts := by
    have hm : first ∈ pySort (msgs.map SlackMessage.ts) := by
      rw [hcons]; exact List.mem_cons_self _ _
    exact hperm.mem_iff.mp hm
  have hmemlast :
      (first :: rest).getLast (List.cons_ne_nil first rest) ∈ msgs.map SlackMessage.ts := by
    have hm : (first :: rest).getLast (List.cons_ne_nil first rest)
        ∈ pySort (msgs.map SlackMessage.ts) := by
      rw [hcons]; exact List.getLast_mem _
    exact hperm.mem_iff.mp hm
  have hbounds : ∀ t ∈ msgs.map SlackMessage.ts,
      strLeb first t = true ∧
      strLeb t ((first :: rest).getLast (List.cons_ne_nil first rest)) = true := by
    intro t ht
    have ht2 : t ∈ first :: rest := by
      rw [← hcons]
      exact hperm.mem_iff.mpr ht
    exact ⟨sorted_cons_le hsorted2 t ht2,
      sorted_le_getLast (first :: rest) (List.cons_ne_nil first rest) hsorted2 t ht2⟩
  have hallP := List.all_eq_true.mp hall
  have hs1 : (tsToIso first).isSome = true := by simpa using hallP first hmemfirst
  have hs2 : (tsToIso ((first :: rest).getLast (List.cons_ne_nil first rest))).isSome = true := by
    simpa using hallP _ hmemlast
  obtain ⟨cv, hcv⟩ : ∃ v, pyFloatUs first = some v := by
    cases hpf : pyFloatUs first with
    | none => simp [tsToIso, hpf] at hs1
    | some v => exact ⟨v, rfl⟩
  obtain ⟨mv, hmv⟩ :
      ∃ v, pyFloatUs ((first :: rest).getLast (List.cons_ne_nil first rest)) = some v := by
    cases hpf : pyFloatUs ((first :: rest).getLast (List.cons_ne_nil first rest)) with
    | none => simp [tsToIso, hpf] at hs2
    | some v => exact ⟨v, rfl⟩
  have hmapmap : msgs.map (fun m => some m.ts) = (msgs.map SlackMessage.ts).map some := by
    rw [List.map_map]; rfl
  refine ⟨first, (first :: rest).getLast (List.cons_ne_nil first rest),
    fromtimestampIso cv, fromtimestampIso mv, hmemfirst, hmemlast, hbounds,
    by simp [tsToIso, hcv], by simp [tsToIso, hmv], ?_⟩
  simp only [SlackIngestDoc.get_file_metadata, gfmFromTs, hmapmap, pySortOpt_map_some,
    hcons, List.map_cons, getLast_map_some, pyFloatArg, hcv, hmv]

/-- Counterexample for C3.  For messages with `ts` strings "99" and "100"
the code sorts the strings lexicographically, so `date_created` is the
rendering of timestamp 100 (not of the minimum timestamp 99) and
`date_modified` the rendering of 99 (not of the maximum 100). -/
theorem claim3_counterexample :
    SlackIngestDoc.get_file_metadata inp0 slackDocDefault probeApi (some c3CexMsgs) =
      (Except.ok (), DocState.mk (some false)
        (some (SlackFileMeta.mk "1970-01-01T00:01:40" "1970-01-01T00:01:39"))) ∧
    tsToIso "99" = some "1970-01-01T00:01:39" ∧
    tsToIso "100" = some "1970-01-01T00:01:40" ∧
    c3CexMsgs.map SlackMessage.ts = ["99", "100"] :=
  ⟨rfl, rfl, rfl, rfl⟩

/-- Claim C3 as amended: for a non-empty message list with convertible
timestamps, `date_created` renders the lexicographically smallest `ts`
string and `date_modified` the lexicographically largest, independently
of input order; this coincides with the numeric minimum and maximum when
the `ts` strings have equal length (as in the spec's 100/500/250
scenario). -/
theorem claim3_metadata_window_lex (inp : SlackDocInputs) (d : DocState) (api : SlackAPI)
    (msgs : List SlackMessage) (hne : msgs ≠ [])
    (hall : (msgs.map SlackMessage.ts).all (fun t => (tsToIso t).isSome) = true) :
    ∃ mn mx created modified,
      mn ∈ msgs.map SlackMessage.ts ∧ mx ∈ msgs.map SlackMessage.ts ∧
      (∀ t ∈ msgs.map SlackMessage.ts, strLeb mn t = true ∧ strLeb t mx = true) ∧
      tsToIso mn = some created ∧ tsToIso mx = some modified ∧
      SlackIngestDoc.get_file_metadata inp d api (some msgs) =
        (Except.ok (), { d with file_meta := some (SlackFileMeta.mk created modified) }) ∧
      (∀ msgs2 : List SlackMessage,
        List.Perm (msgs2.map SlackMessage.ts) (msgs.map SlackMessage.ts) →
        SlackIngestDoc.get_file_metadata inp d api (some msgs2) =
          SlackIngestDoc.get_file_metadata inp d api (some msgs)) := by
  obtain ⟨mn, mx, created, modified, h1, h2, h3, h4, h5, h6⟩ :=
    get_file_metadata_minmax inp d api msgs hne hall
  refine ⟨mn, mx, created, modified, h1, h2, h3, h4, h5, h6, ?_⟩
  intro msgs2 hp
  have hsEq : pySort (msgs2.map SlackMessage.ts) = pySort (msgs.map SlackMessage.ts) := by
    exact List.eq_of_perm_of_sorted
      ((List.perm_insertionSort (fun a b => strLeb a b = true) _).trans
        (hp.trans (List.perm_insertionSort (fun a b => strLeb a b = true) _).symm))
      (List.sorted_insertionSort (fun a b => strLeb a b = true) _)
      (List.sorted_insertionSort (fun a b => strLeb a b = true) _)
  have hmm1 : msgs.map (fun m => some m.ts) = (msgs.map SlackMessage.ts).map some := by
    rw [List.map_map]; rfl
  have hmm2 : msgs2.map (fun m => some m.ts) = (msgs2.map SlackMessage.ts).map some := by
    rw [List.map_map]; rfl
  simp only [SlackIngestDoc.get_file_metadata]
  exact gfmFromTs_congr d
    (by rw [hmm1, hmm2, pySortOpt_map_some, pySortOpt_map_some, hsEq])

/-- Witness for C3 (amended): the spec's scenario — timestamps 100, 500,
250 out of order — yields `created` for 100 and `modified` for 500. -/
theorem claim3_witness :
    (∃ mn mx created modified,
      mn ∈ c3DemoMsgs.map SlackMessage.ts ∧ mx ∈ c3DemoMsgs.map SlackMessage.ts ∧
      (∀ t ∈ c3DemoMsgs.map SlackMessage.ts, strLeb mn t = true ∧ strLeb t mx = true) ∧
      tsToIso mn = some created ∧ tsToIso mx = some modified ∧
      SlackIngestDoc.get_file_metadata inp0 slackDocDefault probeApi (some c3DemoMsgs) =
        (Except.ok (), { slackDocDefault with file_meta := some (SlackFileMeta.mk created modified) }) ∧
      (∀ msgs2 : List SlackMessage,
        List.Perm (msgs2.map SlackMessage.ts) (c3DemoMsgs.map SlackMessage.ts) →
        SlackIngestDoc.get_file_metadata inp0 slackDocDefault probeApi (some msgs2) =
          SlackIngestDoc.get_file_metadata inp0 slackDocDefault probeApi (some c3DemoMsgs))) ∧
    SlackIngestDoc.get_file_metadata inp0 slackDocDefault probeApi (some c3DemoMsgs) =
      (Except.ok (), DocState.mk (some false)
        (some (SlackFileMeta.mk "1970-01-01T00:01:40" "1970-01-01T00:08:20"))) :=
  ⟨claim3_metadata_window_lex inp0 slackDocDefault probeApi c3DemoMsgs (by decide) rfl, rfl⟩

/-- Counterexample for C2.  A default-constructed `SlackIngestDoc` has
`file_exists = False` and `file_meta = None` — no fetch or probe has
occurred — yet reading `exists` performs no probe: it answers immediately
and `file_meta` stays `None`, against the claim that the read triggers a
metadata probe populating the metadata. -/
theorem claim2_counterexample :
    SlackIngestDoc.exists inp0 slackDocDefault probeApi =
      (Except.ok (some false), slackDocDefault) ∧
    slackDocDefault.file_meta = none ∧
    (SlackIngestDoc.exists inp0 slackDocDefault probeApi).2.file_meta = none :=
  ⟨rfl, rfl, rfl⟩

/-- Claim C2 as amended: `exists` triggers `get_file_metadata` only when
`file_exists` is `None`.  In that case the probe runs `_fetch_messages`
(which sets `file_exists` from the history call), but the metadata
computation then iterates the raw `conversations_history` response rather
than its message list, so every `ts` subscript is Python `None` and
`float(None)` raises `TypeError` before `file_meta` is assigned: the probe
never populates the metadata and the read raises instead of answering.
Once `file_exists` is set (as on default-constructed docs, where it starts
as `False`), every read answers from the stored flag with no probe and no
state change, for any API. -/
theorem claim2_exists_probe_amended (inp : SlackDocInputs) (d : DocState) (api : SlackAPI)
    (resp : SlackHistoryResponse)
    (hh : api.history inp.channel (SlackIngestDoc.oldestArg inp)
            (SlackIngestDoc.latestArg inp) = Except.ok resp)
    (hd : d.file_exists = none) :
    SlackIngestDoc.exists inp d api =
      (Except.error "TypeError: float() argument must be a string or a real number, not NoneType",
       DocState.mk (some true) d.file_meta) ∧
    (SlackIngestDoc.exists inp d api).2.file_meta = d.file_meta ∧
    (∀ d2 : DocState, d2.file_exists ≠ none →
       ∀ api2 : SlackAPI, SlackIngestDoc.exists inp d2 api2 = (Except.ok d2.file_exists, d2)) := by
  have hmain : SlackIngestDoc.exists inp d api =
      (Except.error "TypeError: float() argument must be a string or a real number, not NoneType",
       DocState.mk (some true) d.file_meta) := by
    rw [SlackIngestDoc.exists, if_pos hd]
    simp [SlackIngestDoc.get_file_metadata, SlackIngestDoc._fetch_messages, hh,
      SlackHistoryResponse.iterTs, gfmFromTs, pySortOpt, allSomeStrs, pyFloatArg]
  refine ⟨hmain, by rw [hmain], ?_⟩
  intro d2 hd2 api2
  rw [SlackIngestDoc.exists, if_neg hd2]

/-- Witness for C2 (amended): a doc constructed with `file_exists = None`
does probe on the first `exists` read — the fetch marks the doc present —
but the read raises the `float(None)` `TypeError` and `file_meta` stays
`None`; docs with `file_exists` set answer with no probe. -/
theorem claim2_witness :
    (SlackIngestDoc.exists inp0 (DocState.mk none none) probeApi =
      (Except.error "TypeError: float() argument must be a string or a real number, not NoneType",
       DocState.mk (some true) none) ∧
    (SlackIngestDoc.exists inp0 (DocState.mk none none) probeApi).2.file_meta = none ∧
    (∀ d2 : DocState, d2.file_exists ≠ none →
       ∀ api2 : SlackAPI, SlackIngestDoc.exists inp0 d2 api2 = (Except.ok d2.file_exists, d2))) :=
  claim2_exists_probe_amended inp0 (DocState.mk none none) probeApi
    (SlackHistoryResponse.mk [SlackMessage.mk "100" (some "hi")]) rfl rfl

/-- Counterexample for C6.  With a history call that succeeds and a
replies call that always raises a `SlackApiError`, `get_file` neither
surfaces the error nor leaves `file_exists = False`: the except handler
swallows the error and retries the same request, so the call is still
looping after the fuel runs out, with `file_exists = True` and no staged
file. -/
theorem claim6_counterexample :
    SlackIngestDoc.get_file inp0 slackDocDefault none apiRepliesErr 5 =
      (Outcome.diverge, DocState.mk (some true) none, none) ∧
    (SlackIngestDoc.get_file inp0 slackDocDefault none apiRepliesErr 5).1 ≠
      Outcome.raised "ratelimited" ∧
    (SlackIngestDoc.get_file inp0 slackDocDefault none apiRepliesErr 5).2.1.file_exists =
      some true :=
  ⟨rfl, by decide, rfl⟩

/-- Claim C6 as amended: an error reported by the initial
`conversations_history` call during `get_file` is re-raised, leaves
`file_exists = False`, and no staged file exists (not even a partially
written one); an error from the `conversations_replies` pagination,
however, is caught, logged and retried indefinitely rather than
surfaced. -/
theorem claim6_history_error_surfaced (inp : SlackDocInputs) (d : DocState) (api : SlackAPI)
    (e : String) (fuel : Nat)
    (hh : api.history inp.channel (SlackIngestDoc.oldestArg inp)
            (SlackIngestDoc.latestArg inp) = Except.error e) :
    SlackIngestDoc.get_file inp d none api fuel =
      (Outcome.raised e, { d with file_exists := some false }, none) := by
  simp only [SlackIngestDoc.get_file, skip_if_file_exists, Option.isSome_none,
    SlackIngestDoc._fetch_messages, hh]
  rfl

/-- Witness for C6 (amended): a failing history call makes `get_file`
re-raise, mark the doc absent and stage nothing. -/
theorem claim6_witness :
    SlackIngestDoc.get_file inp0 slackDocDefault none apiHistErr 3 =
      (Outcome.raised "channel_not_found", DocState.mk (some false) none, none) :=
  claim6_history_error_surfaced inp0 slackDocDefault apiHistErr "channel_not_found" 3 rfl
